import Mathlib

/-!
Shallow embedding of the payment-reconciliation core of the doctor-backend
service (file deepseek_javascript_20250903_d1d6a6.js). The embedded pieces
are: the Paystack signature verifier, the payment-record insert, the
payment-status update with its conditional appointment confirmation, the
initiation route handler, and the webhook route handler. The remote
database is modelled as an in-memory store of payment and appointment
rows; possible store failures are injected through explicit flags, and the
external effects each handler performs are recorded in a trace.
-/

namespace DoctorBackend

/-- A row of the payments table, with the columns written by
createPaymentRecord: appointment_id, amount_ngn, provider, ref, status. -/
structure Payment where
  appointment_id : String
  amount_ngn : Int
  provider : String
  ref : String
  status : String
deriving Repr, DecidableEq

/-- A row of the appointments table; the core only touches the status column. -/
structure Appointment where
  id : String
  status : String
deriving Repr, DecidableEq

/-- The remote database state: the payments and appointments tables. -/
structure Store where
  payments : List Payment
  appointments : List Appointment
deriving Repr, DecidableEq

/-- Injected failure flags for the three store operations a handler can
perform: the payments insert, the payments update, and the appointments
update. A true flag makes the corresponding supabase call return an error. -/
structure StoreBehavior where
  insertError : Bool
  paymentUpdateError : Bool
  appointmentUpdateError : Bool
deriving Repr, DecidableEq

/-- Store behavior in which every database call succeeds. -/
def okBehavior : StoreBehavior := ⟨false, false, false⟩

/-- External effects a handler performs, in order. -/
inductive Action where
  | storeInsertPayment (appointment_id : String) (amount_ngn : Int)
      (provider status ref : String)
  | gatewayCall (amount : Int) (reference : String)
  | storeUpdatePayment (reference status : String)
  | storeUpdateAppointment (id status : String)
deriving Repr, DecidableEq

/-- Whether an action is the outbound HTTP call to the payment gateway. -/
def Action.isGatewayCall : Action → Bool
  | Action.gatewayCall _ _ => true
  | _ => false

/-- Whether an action writes to the appointments table. -/
def Action.isAppointmentWrite : Action → Bool
  | Action.storeUpdateAppointment _ _ => true
  | _ => false

/-- JavaScript truthiness of an optional string value (null and the empty
string are falsy). -/
def jsTruthyStr : Option String → Bool
  | none => false
  | some s => s != ""

/-- JavaScript truthiness of an optional numeric value (null and 0 are falsy). -/
def jsTruthyInt : Option Int → Bool
  | none => false
  | some n => n != 0

/-- The row transformation of the supabase call
update (status) eq (ref, reference) on one payment row. -/
def setStatusIfRef (reference status : String) (p : Payment) : Payment :=
  if p.ref == reference then { p with status := status } else p

/-- Effect on the store of the payments-table update filtered by ref. -/
def updatePayments (store : Store) (reference status : String) : Store :=
  { store with payments := store.payments.map (setStatusIfRef reference status) }

/-- The row transformation of the supabase call
update (status, confirmed) eq (id, appointment_id) on one appointment row. -/
def confirmIfId (appointment_id : String) (a : Appointment) : Appointment :=
  if a.id == appointment_id then { a with status := "confirmed" } else a

/-- Effect on the store of the appointments-table update filtered by id. -/
def updateAppointments (store : Store) (appointment_id : String) : Store :=
  { store with appointments := store.appointments.map (confirmIfId appointment_id) }

/-- Effect on the store of the payments-table insert of createPaymentRecord. -/
def insertPayment (store : Store) (p : Payment) : Store :=
  { store with payments := store.payments ++ [p] }

/-- Result of updatePaymentStatus: ok is false when the function throws a
DatabaseError (payments update failed); the trace lists the store writes
attempted; appointmentUpdateFailed records the logged, swallowed error of
the appointments update. -/
structure UpdateResult where
  ok : Bool
  store : Store
  trace : List Action
  appointmentUpdateFailed : Bool
deriving Repr, DecidableEq

/-- Embedding of updatePaymentStatus (lines 124-153): update the payments
row matching the reference to the given status, throwing DatabaseError on
failure; then, only when the status is paid and the appointment_id is
truthy, update the appointment to confirmed, logging but not throwing on
failure of that second write. -/
def updatePaymentStatus (beh : StoreBehavior) (store : Store)
    (reference status : String) (appointment_id : Option String) : UpdateResult :=
  let t0 : List Action := [Action.storeUpdatePayment reference status]
  if beh.paymentUpdateError then
    { ok := false, store := store, trace := t0, appointmentUpdateFailed := false }
  else
    let s1 := updatePayments store reference status
    if status == "paid" && jsTruthyStr appointment_id then
      let aid := appointment_id.getD ""
      let t1 := t0 ++ [Action.storeUpdateAppointment aid "confirmed"]
      if beh.appointmentUpdateError then
        { ok := true, store := s1, trace := t1, appointmentUpdateFailed := true }
      else
        { ok := true, store := updateAppointments s1 aid, trace := t1,
          appointmentUpdateFailed := false }
    else
      { ok := true, store := s1, trace := t0, appointmentUpdateFailed := false }

/-- Result of the signature verifier: warned records the console warning
emitted when no secret is configured; accepted is the returned boolean. -/
structure VerifyResult where
  warned : Bool
  accepted : Bool
deriving Repr, DecidableEq

/-- Embedding of verifyPaystackSignature (lines 84-96). The HMAC-SHA512
hex digest is abstracted as a function from secret and serialized body to
a hex string; with no configured secret the verifier warns and accepts;
with a secret it compares the digest of the body against the value of the
x-paystack-signature header (a missing header never equals the digest). -/
def verifyPaystackSignature (hmacSha512Hex : String → String → String)
    (webhookSecret : Option String) (bodyJson : String)
    (headerSignature : Option String) : VerifyResult :=
  match webhookSecret with
  | none => ⟨true, true⟩
  | some secret =>
    ⟨false,
      match headerSignature with
      | some h => hmacSha512Hex secret bodyJson == h
      | none => false⟩

/-- A parsed webhook body: the event type, the transaction reference and
the optional appointment_id carried in the event metadata. -/
structure WebhookEvent where
  event : String
  reference : String
  appointment_id : Option String
deriving Repr, DecidableEq

/-- Outcome of a route handler: the HTTP status sent, the resulting store
and the ordered trace of external effects. -/
structure HandlerResult where
  status : Nat
  store : Store
  trace : List Action
deriving Repr, DecidableEq

/-- Embedding of the webhook route handler (lines 200-226), after the
signature check has been computed: 401 on bad signature with no store
access; charge.success applies updatePaymentStatus with target paid and
the metadata appointment_id; charge.failed applies it with target failed
and no appointment_id; any other event type is ignored; a DatabaseError
thrown by updatePaymentStatus is caught and answered with 500, otherwise
the handler answers 200. -/
def webhookHandler (beh : StoreBehavior) (sigValid : Bool)
    (event : WebhookEvent) (store : Store) : HandlerResult :=
  if !sigValid then ⟨401, store, []⟩
  else if event.event == "charge.success" then
    let u := updatePaymentStatus beh store event.reference "paid" event.appointment_id
    if u.ok then ⟨200, u.store, u.trace⟩ else ⟨500, u.store, u.trace⟩
  else if event.event == "charge.failed" then
    let u := updatePaymentStatus beh store event.reference "failed" none
    if u.ok then ⟨200, u.store, u.trace⟩ else ⟨500, u.store, u.trace⟩
  else ⟨200, store, []⟩

/-- The webhook route including the signature verification step. -/
def webhookEndpoint (hmacSha512Hex : String → String → String)
    (webhookSecret : Option String) (bodyJson : String)
    (headerSignature : Option String) (beh : StoreBehavior)
    (event : WebhookEvent) (store : Store) : HandlerResult :=
  webhookHandler beh
    (verifyPaystackSignature hmacSha512Hex webhookSecret bodyJson headerSignature).accepted
    event store

/-- Embedding of the initiation route handler (lines 156-197). Missing
appointment_id or amount_ngn raises PaymentError (400) before any side
effect; otherwise createPaymentRecord inserts the initiated payment row
(a failing insert raises DatabaseError, 500, before any gateway call);
then the gateway is called; on a falsy gateway status the payment is
updated to failed and PaymentError (400) is raised, with a DatabaseError
of that update propagating as 500; on success the checkout data is
returned (200). -/
def initHandler (beh : StoreBehavior) (ref : String) (gatewayStatus : Bool)
    (appointment_id : Option String) (amount_ngn : Option Int)
    (store : Store) : HandlerResult :=
  if !(jsTruthyStr appointment_id && jsTruthyInt amount_ngn) then
    ⟨400, store, []⟩
  else
    let aid := appointment_id.getD ""
    let amt := amount_ngn.getD 0
    let insertAct := Action.storeInsertPayment aid amt "paystack" "initiated" ref
    if beh.insertError then
      ⟨500, store, [insertAct]⟩
    else
      let s1 := insertPayment store ⟨aid, amt, "paystack", ref, "initiated"⟩
      let t1 := [insertAct, Action.gatewayCall (amt * 100) ref]
      if !gatewayStatus then
        let u := updatePaymentStatus beh s1 ref "failed" none
        if u.ok then ⟨400, u.store, t1 ++ u.trace⟩
        else ⟨500, u.store, t1 ++ u.trace⟩
      else
        ⟨200, s1, t1⟩

/-! Helper lemmas about the store operations. -/

/-- Updating a row to a status and updating it again to the same status is
the same as updating it once. -/
theorem setStatusIfRef_idem (reference status : String) (p : Payment) :
    setStatusIfRef reference status (setStatusIfRef reference status p) =
      setStatusIfRef reference status p := by
  unfold setStatusIfRef
  by_cases h : p.ref == reference <;> simp [h]

/-- Mapping the payments-row update twice over a list equals mapping it once. -/
theorem mapSet_idem (reference status : String) (l : List Payment) :
    (l.map (setStatusIfRef reference status)).map (setStatusIfRef reference status) =
      l.map (setStatusIfRef reference status) := by
  induction l with
  | nil => rfl
  | cons p t ih => simp [ih, setStatusIfRef_idem]

/-- Confirming an appointment row twice equals confirming it once. -/
theorem confirmIfId_idem (appointment_id : String) (a : Appointment) :
    confirmIfId appointment_id (confirmIfId appointment_id a) =
      confirmIfId appointment_id a := by
  unfold confirmIfId
  by_cases h : a.id == appointment_id <;> simp [h]

/-- Mapping the appointment confirmation twice over a list equals mapping it once. -/
theorem mapConfirm_idem (appointment_id : String) (l : List Appointment) :
    (l.map (confirmIfId appointment_id)).map (confirmIfId appointment_id) =
      l.map (confirmIfId appointment_id) := by
  induction l with
  | nil => rfl
  | cons a t ih => simp [ih, confirmIfId_idem]

/-- When the payments update succeeds, updatePaymentStatus returns true. -/
theorem updatePaymentStatus_ok (beh : StoreBehavior) (store : Store)
    (reference status : String) (appointment_id : Option String)
    (hp : beh.paymentUpdateError = false) :
    (updatePaymentStatus beh store reference status appointment_id).ok = true := by
  unfold updatePaymentStatus
  simp [hp]
  split
  · split <;> rfl
  · rfl

/-- When the payments update succeeds, the payments table after
updatePaymentStatus is exactly the payments table after the filtered update. -/
theorem updatePaymentStatus_payments (beh : StoreBehavior) (store : Store)
    (reference status : String) (appointment_id : Option String)
    (hp : beh.paymentUpdateError = false) :
    (updatePaymentStatus beh store reference status appointment_id).store.payments =
      (updatePayments store reference status).payments := by
  unfold updatePaymentStatus
  simp [hp]
  split
  · split <;> rfl
  · rfl

/-- Every payment row whose ref matches the filter of a payments update
carries the written status afterwards. -/
theorem updatePayments_matching_status (store : Store) (reference status : String) :
    ∀ p ∈ (updatePayments store reference status).payments,
      p.ref = reference → p.status = status := by
  intro p hp hr
  unfold updatePayments at hp
  simp only [List.mem_map] at hp
  obtain ⟨q, _, rfl⟩ := hp
  unfold setStatusIfRef at hr ⊢
  by_cases h : q.ref == reference
  · simp [h]
  · simp only [h, if_neg, Bool.false_eq_true, if_false] at hr
    exact absurd hr (by simpa using h)

/-- Applying updatePaymentStatus a second time with the same arguments
leaves the store unchanged, provided the payments update succeeds. -/
theorem updatePaymentStatus_idem (beh : StoreBehavior) (store : Store)
    (reference status : String) (appointment_id : Option String)
    (hp : beh.paymentUpdateError = false) :
    (updatePaymentStatus beh
        (updatePaymentStatus beh store reference status appointment_id).store
        reference status appointment_id).store =
      (updatePaymentStatus beh store reference status appointment_id).store := by
  unfold updatePaymentStatus
  by_cases hc : (status == "paid" && jsTruthyStr appointment_id) = true
  · by_cases hd : beh.appointmentUpdateError = true
    · simp [hp, hc, hd, updatePayments, mapSet_idem]
      exact fun a _ => setStatusIfRef_idem reference status a
    · simp [hp, hc, hd, updatePayments, updateAppointments, mapSet_idem, mapConfirm_idem]
      exact ⟨fun a _ => setStatusIfRef_idem reference status a,
        fun a _ => confirmIfId_idem (appointment_id.getD "") a⟩
  · simp [hp, hc, updatePayments, mapSet_idem]
    exact fun a _ => setStatusIfRef_idem reference status a

/-- The first store write attempted by updatePaymentStatus is always the
payments update carrying the target status. -/
theorem updatePaymentStatus_trace_head (beh : StoreBehavior) (store : Store)
    (reference status : String) (appointment_id : Option String) :
    (updatePaymentStatus beh store reference status appointment_id).trace.head? =
      some (Action.storeUpdatePayment reference status) := by
  unfold updatePaymentStatus
  by_cases hb : beh.paymentUpdateError = true
  · simp [hb]
  · simp [hb]
    split
    · split <;> rfl
    · rfl

/-- The payments-row update leaves every column except status unchanged,
and leaves status unchanged on rows whose ref does not match the filter. -/
theorem setStatusIfRef_frame (reference status : String) (p : Payment) :
    (setStatusIfRef reference status p).appointment_id = p.appointment_id ∧
    (setStatusIfRef reference status p).amount_ngn = p.amount_ngn ∧
    (setStatusIfRef reference status p).provider = p.provider ∧
    (setStatusIfRef reference status p).ref = p.ref ∧
    (p.ref ≠ reference → (setStatusIfRef reference status p).status = p.status) := by
  unfold setStatusIfRef
  by_cases h : p.ref == reference
  · have he : p.ref = reference := by simpa using h
    simp [h, he]
  · simp [h]

/-- The payments table after the webhook handler is either untouched or
the image of the filtered status update for the event reference. -/
theorem webhookHandler_payments_cases (beh : StoreBehavior) (sigValid : Bool)
    (event : WebhookEvent) (store : Store) :
    (webhookHandler beh sigValid event store).store.payments = store.payments ∨
    ∃ st, (webhookHandler beh sigValid event store).store.payments =
      store.payments.map (setStatusIfRef event.reference st) := by
  unfold webhookHandler
  cases hs : sigValid
  · left; simp
  · by_cases h1 : (event.event == "charge.success") = true
    · cases hb : beh.paymentUpdateError
      · right
        refine ⟨"paid", ?_⟩
        have h := updatePaymentStatus_payments beh store event.reference "paid"
          event.appointment_id hb
        simp only [h1, Bool.not_true, Bool.false_eq_true, if_false, if_true]
        split <;> simpa [updatePayments] using h
      · left
        simp [h1, updatePaymentStatus, hb]
    · by_cases h2 : (event.event == "charge.failed") = true
      · cases hb : beh.paymentUpdateError
        · right
          refine ⟨"failed", ?_⟩
          have h := updatePaymentStatus_payments beh store event.reference "failed" none hb
          simp only [h1, h2, Bool.not_true, Bool.false_eq_true, if_false, if_true]
          split <;> simpa [updatePayments] using h
        · left
          simp [h1, h2, updatePaymentStatus, hb]
      · left; simp [h1, h2]

/-- A list whose head is not a gateway call places every gateway call at a
positive index. -/
theorem head_not_gateway_pos (x : Action) (t : List Action)
    (hx : x.isGatewayCall = false) :
    ∀ i a, (x :: t).get? i = some a → a.isGatewayCall = true → 0 < i := by
  intro i a h hg
  cases i with
  | zero =>
    simp only [List.get?] at h
    cases h
    rw [hx] at hg
    exact absurd hg (by decide)
  | succ n => exact Nat.succ_pos n

/-- For every valid initiation request, the effect trace starts with the
insert of the initiated payment row. -/
theorem initHandler_trace_shape (beh : StoreBehavior) (ref : String)
    (gatewayStatus : Bool) (appointment_id : Option String)
    (amount_ngn : Option Int) (store : Store)
    (ha : jsTruthyStr appointment_id = true) (hm : jsTruthyInt amount_ngn = true) :
    ∃ rest : List Action,
      (initHandler beh ref gatewayStatus appointment_id amount_ngn store).trace =
        Action.storeInsertPayment (appointment_id.getD "") (amount_ngn.getD 0)
          "paystack" "initiated" ref :: rest := by
  unfold initHandler
  simp only [ha, hm, Bool.and_self, Bool.not_true, Bool.false_eq_true, if_false]
  cases hb : beh.insertError
  · cases hg : gatewayStatus
    · by_cases hp : beh.paymentUpdateError = true <;>
        exact ⟨[Action.gatewayCall (amount_ngn.getD 0 * 100) ref,
                Action.storeUpdatePayment ref "failed"],
          by simp [updatePaymentStatus, jsTruthyStr, hp]⟩
    · exact ⟨[Action.gatewayCall (amount_ngn.getD 0 * 100) ref], by simp⟩
  · exact ⟨[], by simp⟩

/-! Claim theorems. -/

/-- C1: the claim states that processing a charge.failed webhook event for
a payment whose status is already the terminal state paid leaves the
status paid. The payments update of updatePaymentStatus is an
unconditional update filtered only by ref, so the code overwrites the
terminal state: at this concrete input the charge.failed event rewrites a
paid payment to failed, contradicting the claim. -/
theorem chargeFailed_overwrites_paid :
    (webhookHandler okBehavior true ⟨"charge.failed", "ps_ref_X", none⟩
        ⟨[⟨"A1", 5000, "paystack", "ps_ref_X", "paid"⟩], []⟩).store =
      ⟨[⟨"A1", 5000, "paystack", "ps_ref_X", "failed"⟩], []⟩ := by
  rfl

/-- C2: for every valid initiation request (truthy appointment_id and
amount), the effect trace of the initiation handler begins with the
payments insert of the initiated row, and every gateway call in the trace
occurs at a strictly later position. -/
theorem init_insert_precedes_gateway (beh : StoreBehavior) (ref : String)
    (gatewayStatus : Bool) (appointment_id : Option String)
    (amount_ngn : Option Int) (store : Store)
    (ha : jsTruthyStr appointment_id = true) (hm : jsTruthyInt amount_ngn = true) :
    (initHandler beh ref gatewayStatus appointment_id amount_ngn store).trace.head? =
      some (Action.storeInsertPayment (appointment_id.getD "") (amount_ngn.getD 0)
        "paystack" "initiated" ref) ∧
    ∀ i a,
      (initHandler beh ref gatewayStatus appointment_id amount_ngn store).trace.get? i = some a →
      a.isGatewayCall = true → 0 < i := by
  obtain ⟨rest, hshape⟩ :=
    initHandler_trace_shape beh ref gatewayStatus appointment_id amount_ngn store ha hm
  rw [hshape]
  exact ⟨rfl, head_not_gateway_pos _ _ rfl⟩

/-- Witness for C2 at a concrete valid initiation request. -/
theorem init_insert_precedes_gateway_w :
    (initHandler okBehavior "ps_ref_1" true (some "A1") (some 5000) ⟨[], []⟩).trace.head? =
      some (Action.storeInsertPayment "A1" 5000 "paystack" "initiated" "ps_ref_1") :=
  (init_insert_precedes_gateway okBehavior "ps_ref_1" true (some "A1") (some 5000)
    ⟨[], []⟩ (by decide) (by decide)).1

/-- C3 counterexample: the claim states the webhook route answers 200 once
the signature verifies and the body parses, even when the payment-store
update fails. At this concrete input the signature verifies (no secret
configured, fail open), the body is a parsed charge.success event, the
payments update fails, updatePaymentStatus throws a DatabaseError, and the
catch block of the route answers 500, not 200. -/
theorem webhook_payment_store_failure_answers_500 :
    (webhookEndpoint (fun _ _ => "") none "" none ⟨false, true, false⟩
        ⟨"charge.success", "ps_ref_X", some "A1"⟩
        ⟨[⟨"A1", 5000, "paystack", "ps_ref_X", "initiated"⟩], []⟩).status = 500 ∧
    (webhookEndpoint (fun _ _ => "") none "" none ⟨false, true, false⟩
        ⟨"charge.success", "ps_ref_X", some "A1"⟩
        ⟨[⟨"A1", 5000, "paystack", "ps_ref_X", "initiated"⟩], []⟩).status ≠ 200 := by
  constructor
  · rfl
  · decide

/-- C3 amended: once the signature verifies, the webhook route answers 200
whenever the payments-table update succeeds, in particular regardless of a
failing appointments-table update; only a failing payments update makes it
answer 500. -/
theorem webhook_ack_when_payment_update_succeeds
    (hmacSha512Hex : String → String → String) (webhookSecret : Option String)
    (bodyJson : String) (headerSignature : Option String)
    (beh : StoreBehavior) (event : WebhookEvent) (store : Store)
    (hsig : (verifyPaystackSignature hmacSha512Hex webhookSecret bodyJson
      headerSignature).accepted = true)
    (hp : beh.paymentUpdateError = false) :
    (webhookEndpoint hmacSha512Hex webhookSecret bodyJson headerSignature
      beh event store).status = 200 := by
  unfold webhookEndpoint webhookHandler
  rw [hsig]
  by_cases h1 : (event.event == "charge.success") = true
  · simp [h1, updatePaymentStatus_ok, hp]
  · by_cases h2 : (event.event == "charge.failed") = true
    · simp [h1, h2, updatePaymentStatus_ok, hp]
    · simp [h1, h2]

/-- Witness for C3 amended: a concrete charge.success delivery with a
failing appointments update is still answered with 200. -/
theorem webhook_ack_when_payment_update_succeeds_w :
    (webhookEndpoint (fun _ _ => "") none "" none ⟨false, false, true⟩
        ⟨"charge.success", "ps_ref_X", some "A1"⟩
        ⟨[⟨"A1", 5000, "paystack", "ps_ref_X", "initiated"⟩], []⟩).status = 200 :=
  webhook_ack_when_payment_update_succeeds (fun _ _ => "") none "" none
    ⟨false, false, true⟩ ⟨"charge.success", "ps_ref_X", some "A1"⟩
    ⟨[⟨"A1", 5000, "paystack", "ps_ref_X", "initiated"⟩], []⟩ rfl rfl

/-- C4: for every inbound webhook event whose signature does not verify,
the route answers 401, the store is unchanged and no external effect is
performed. -/
theorem webhook_invalid_signature_rejected
    (hmacSha512Hex : String → String → String) (webhookSecret : Option String)
    (bodyJson : String) (headerSignature : Option String)
    (beh : StoreBehavior) (event : WebhookEvent) (store : Store)
    (hsig : (verifyPaystackSignature hmacSha512Hex webhookSecret bodyJson
      headerSignature).accepted = false) :
    (webhookEndpoint hmacSha512Hex webhookSecret bodyJson headerSignature
      beh event store).status = 401 ∧
    (webhookEndpoint hmacSha512Hex webhookSecret bodyJson headerSignature
      beh event store).store = store ∧
    (webhookEndpoint hmacSha512Hex webhookSecret bodyJson headerSignature
      beh event store).trace = [] := by
  unfold webhookEndpoint webhookHandler
  rw [hsig]
  exact ⟨rfl, rfl, rfl⟩

/-- Witness for C4: a concrete delivery whose header does not match the
digest is answered with 401. -/
theorem webhook_invalid_signature_rejected_w :
    (webhookEndpoint (fun s b => s ++ b) (some "k") "body" (some "wrong") okBehavior
        ⟨"charge.success", "ps_ref_X", none⟩ ⟨[], []⟩).status = 401 :=
  (webhook_invalid_signature_rejected (fun s b => s ++ b) (some "k") "body"
    (some "wrong") okBehavior ⟨"charge.success", "ps_ref_X", none⟩ ⟨[], []⟩
    (by decide)).1

/-- C5: once the signature check passes, the event type alone determines
the reconciliation action: charge.success first writes target status paid
to the payments rows matching the reference, charge.failed first writes
target status failed, and any other event type performs no store effect
and answers 200. -/
theorem webhook_event_type_determines_action (beh : StoreBehavior)
    (event : WebhookEvent) (store : Store) :
    (event.event = "charge.success" →
      (webhookHandler beh true event store).trace.head? =
        some (Action.storeUpdatePayment event.reference "paid")) ∧
    (event.event = "charge.failed" →
      (webhookHandler beh true event store).trace.head? =
        some (Action.storeUpdatePayment event.reference "failed")) ∧
    (event.event ≠ "charge.success" → event.event ≠ "charge.failed" →
      (webhookHandler beh true event store).store = store ∧
      (webhookHandler beh true event store).trace = [] ∧
      (webhookHandler beh true event store).status = 200) := by
  refine ⟨?_, ?_, ?_⟩
  · intro h1
    unfold webhookHandler
    simp [h1, updatePaymentStatus_trace_head]
    split <;> exact updatePaymentStatus_trace_head beh store event.reference "paid"
      event.appointment_id
  · intro h2
    unfold webhookHandler
    simp [h2]
    split <;> exact updatePaymentStatus_trace_head beh store event.reference "failed" none
  · intro h1 h2
    unfold webhookHandler
    simp [h1, h2]

/-- Witness for C5: a concrete event of another type leaves the store
unchanged and is acknowledged. -/
theorem webhook_event_type_determines_action_w :
    (webhookHandler okBehavior true ⟨"transfer.success", "ps_ref_X", none⟩
        ⟨[⟨"A1", 5000, "paystack", "ps_ref_X", "initiated"⟩], []⟩).store =
      ⟨[⟨"A1", 5000, "paystack", "ps_ref_X", "initiated"⟩], []⟩ :=
  ((webhook_event_type_determines_action okBehavior
    ⟨"transfer.success", "ps_ref_X", none⟩
    ⟨[⟨"A1", 5000, "paystack", "ps_ref_X", "initiated"⟩], []⟩).2.2
    (by decide) (by decide)).1

/-- C6: when the gateway call during initiation reports failure (and the
store itself is functioning), the initiation route marks the just created
payment row failed and answers 400, the PaymentError status code. -/
theorem init_gateway_failure_marks_failed_and_400 (beh : StoreBehavior)
    (ref : String) (appointment_id : Option String) (amount_ngn : Option Int)
    (store : Store)
    (ha : jsTruthyStr appointment_id = true) (hm : jsTruthyInt amount_ngn = true)
    (hins : beh.insertError = false) (hp : beh.paymentUpdateError = false) :
    (initHandler beh ref false appointment_id amount_ngn store).status = 400 ∧
    (⟨appointment_id.getD "", amount_ngn.getD 0, "paystack", ref, "failed"⟩ : Payment) ∈
      (initHandler beh ref false appointment_id amount_ngn store).store.payments ∧
    (∀ p ∈ (initHandler beh ref false appointment_id amount_ngn store).store.payments,
      p.ref = ref → p.status = "failed") := by
  have hshape : initHandler beh ref false appointment_id amount_ngn store =
      ⟨400,
        updatePayments (insertPayment store
          ⟨appointment_id.getD "", amount_ngn.getD 0, "paystack", ref, "initiated"⟩)
          ref "failed",
        [Action.storeInsertPayment (appointment_id.getD "") (amount_ngn.getD 0)
          "paystack" "initiated" ref,
          Action.gatewayCall (amount_ngn.getD 0 * 100) ref,
          Action.storeUpdatePayment ref "failed"]⟩ := by
    unfold initHandler updatePaymentStatus
    simp [ha, hm, hins, hp, show jsTruthyStr none = false from rfl]
  rw [hshape]
  refine ⟨rfl, ?_, updatePayments_matching_status _ ref "failed"⟩
  simp [updatePayments, insertPayment, setStatusIfRef]

/-- Witness for C6 at a concrete initiation request whose gateway call
fails. -/
theorem init_gateway_failure_marks_failed_and_400_w :
    (initHandler okBehavior "ps_ref_1" false (some "A1") (some 5000) ⟨[], []⟩).status = 400 :=
  (init_gateway_failure_marks_failed_and_400 okBehavior "ps_ref_1" (some "A1")
    (some 5000) ⟨[], []⟩ (by decide) (by decide) rfl rfl).1

/-- C7: reconciliation is idempotent. Once the signature check passes and
the payments update succeeds, delivering the same webhook event a second
time leaves the store exactly as after the first delivery, and the second
delivery is answered 200, not an error. -/
theorem webhook_reconciliation_idempotent (beh : StoreBehavior)
    (event : WebhookEvent) (store : Store)
    (hp : beh.paymentUpdateError = false) :
    (webhookHandler beh true event
        (webhookHandler beh true event store).store).store =
      (webhookHandler beh true event store).store ∧
    (webhookHandler beh true event
        (webhookHandler beh true event store).store).status = 200 := by
  by_cases h1 : (event.event == "charge.success") = true
  · constructor
    · simp [webhookHandler, h1, updatePaymentStatus_ok, hp]
      exact updatePaymentStatus_idem beh store event.reference "paid"
        event.appointment_id hp
    · simp [webhookHandler, h1, updatePaymentStatus_ok, hp]
  · by_cases h2 : (event.event == "charge.failed") = true
    · constructor
      · simp [webhookHandler, h1, h2, updatePaymentStatus_ok, hp]
        exact updatePaymentStatus_idem beh store event.reference "failed" none hp
      · simp [webhookHandler, h1, h2, updatePaymentStatus_ok, hp]
    · simp [webhookHandler, h1, h2]

/-- Witness for C7: a concrete charge.success event applied twice. -/
theorem webhook_reconciliation_idempotent_w :
    (webhookHandler okBehavior true ⟨"charge.success", "ps_ref_X", some "A1"⟩
        (webhookHandler okBehavior true ⟨"charge.success", "ps_ref_X", some "A1"⟩
          ⟨[⟨"A1", 5000, "paystack", "ps_ref_X", "initiated"⟩],
            [⟨"A1", "pending"⟩]⟩).store).status = 200 :=
  (webhook_reconciliation_idempotent okBehavior
    ⟨"charge.success", "ps_ref_X", some "A1"⟩
    ⟨[⟨"A1", 5000, "paystack", "ps_ref_X", "initiated"⟩], [⟨"A1", "pending"⟩]⟩ rfl).2

/-- C8: the appointments table is written only when the target status is
paid and a truthy appointment_id is present; when the payments update
succeeds, updatePaymentStatus reports success and keeps the applied
payments update even if the appointments update fails; and the webhook
route still answers 200 when only the appointments update fails, so the
failure is not surfaced to the webhook sender. -/
theorem appointment_confirmation_best_effort (beh : StoreBehavior)
    (store : Store) (reference status : String) (appointment_id : Option String)
    (hp : beh.paymentUpdateError = false) :
    (∀ a ∈ (updatePaymentStatus beh store reference status appointment_id).trace,
      a.isAppointmentWrite = true →
        status = "paid" ∧ jsTruthyStr appointment_id = true) ∧
    (updatePaymentStatus beh store reference status appointment_id).ok = true ∧
    (updatePaymentStatus beh store reference status appointment_id).store.payments =
      (updatePayments store reference status).payments ∧
    (beh.appointmentUpdateError = true →
      (webhookHandler beh true ⟨"charge.success", reference, appointment_id⟩
        store).status = 200) := by
  refine ⟨?_, updatePaymentStatus_ok beh store reference status appointment_id hp,
    updatePaymentStatus_payments beh store reference status appointment_id hp, ?_⟩
  · intro a ha hw
    unfold updatePaymentStatus at ha
    by_cases hc : (status == "paid" && jsTruthyStr appointment_id) = true
    · have := Bool.and_eq_true _ _ |>.mp hc
      exact ⟨by simpa using this.1, this.2⟩
    · simp [hp, hc] at ha
      rw [ha] at hw
      exact absurd hw (by simp [Action.isAppointmentWrite])
  · intro _
    simp [webhookHandler, updatePaymentStatus_ok, hp]

/-- Witness for C8: a concrete charge.success delivery whose appointments
update fails is still answered with 200. -/
theorem appointment_confirmation_best_effort_w :
    (webhookHandler ⟨false, false, true⟩ true ⟨"charge.success", "ps_ref_X", some "A1"⟩
        ⟨[⟨"A1", 5000, "paystack", "ps_ref_X", "initiated"⟩],
          [⟨"A1", "pending"⟩]⟩).status = 200 :=
  (appointment_confirmation_best_effort ⟨false, false, true⟩
    ⟨[⟨"A1", 5000, "paystack", "ps_ref_X", "initiated"⟩], [⟨"A1", "pending"⟩]⟩
    "ps_ref_X" "paid" (some "A1") rfl).2.2.2 rfl

/-- C9: with no configured secret the verifier warns and accepts every
webhook; with a configured secret it emits no warning and accepts exactly
when the hex HMAC-SHA512 digest of the serialized body equals the value of
the signature header; being a total function it never throws. -/
theorem verify_paystack_signature_spec (hmacSha512Hex : String → String → String)
    (bodyJson : String) (headerSignature : Option String) :
    verifyPaystackSignature hmacSha512Hex none bodyJson headerSignature = ⟨true, true⟩ ∧
    ∀ secret : String,
      (verifyPaystackSignature hmacSha512Hex (some secret) bodyJson
        headerSignature).warned = false ∧
      ((verifyPaystackSignature hmacSha512Hex (some secret) bodyJson
          headerSignature).accepted = true ↔
        headerSignature = some (hmacSha512Hex secret bodyJson)) := by
  refine ⟨rfl, fun secret => ⟨rfl, ?_⟩⟩
  cases headerSignature with
  | none => simp [verifyPaystackSignature]
  | some h =>
    simp only [verifyPaystackSignature, beq_iff_eq, Option.some.injEq]
    exact eq_comm

/-- Witness for C9: the fail-open acceptance at a concrete input with no
configured secret. -/
theorem verify_paystack_signature_spec_w :
    verifyPaystackSignature (fun s b => s ++ b) none "x" none = ⟨true, true⟩ :=
  (verify_paystack_signature_spec (fun s b => s ++ b) "x" none).1

/-- C10: the webhook handler preserves the number of payment rows, changes
no column of any payment row other than status, leaves the status of rows
whose ref differs from the event reference unchanged, and a charge.failed
event never writes the appointments table. -/
theorem webhook_frame_conditions (beh : StoreBehavior) (sigValid : Bool)
    (event : WebhookEvent) (store : Store) :
    (webhookHandler beh sigValid event store).store.payments.length =
      store.payments.length ∧
    (∀ i p q, store.payments.get? i = some p →
      (webhookHandler beh sigValid event store).store.payments.get? i = some q →
      q.appointment_id = p.appointment_id ∧ q.amount_ngn = p.amount_ngn ∧
      q.provider = p.provider ∧ q.ref = p.ref ∧
      (p.ref ≠ event.reference → q.status = p.status)) ∧
    (event.event = "charge.failed" →
      (webhookHandler beh sigValid event store).store.appointments =
        store.appointments) := by
  refine ⟨?_, ?_, ?_⟩
  · rcases webhookHandler_payments_cases beh sigValid event store with h | ⟨st, h⟩ <;>
      simp [h]
  · intro i p q hp hq
    rcases webhookHandler_payments_cases beh sigValid event store with h | ⟨st, h⟩
    · rw [h, hp] at hq
      cases hq
      exact ⟨rfl, rfl, rfl, rfl, fun _ => rfl⟩
    · rw [h, List.get?_map, hp] at hq
      have hq2 : setStatusIfRef event.reference st p = q := by simpa using hq
      subst hq2
      exact setStatusIfRef_frame event.reference st p
  · intro hev
    unfold webhookHandler updatePaymentStatus
    cases hs : sigValid
    · simp
    · by_cases hb : beh.paymentUpdateError = true <;>
        simp [hev, hb, updatePayments, show jsTruthyStr none = false from rfl]

/-- Witness for C10: a concrete charge.failed delivery leaves the
appointments table untouched. -/
theorem webhook_frame_conditions_w :
    (webhookHandler okBehavior true ⟨"charge.failed", "ps_ref_X", none⟩
        ⟨[⟨"A1", 5000, "paystack", "ps_ref_X", "initiated"⟩],
          [⟨"A1", "pending"⟩]⟩).store.appointments = [⟨"A1", "pending"⟩] :=
  (webhook_frame_conditions okBehavior true ⟨"charge.failed", "ps_ref_X", none⟩
    ⟨[⟨"A1", 5000, "paystack", "ps_ref_X", "initiated"⟩], [⟨"A1", "pending"⟩]⟩).2.2 rfl

end DoctorBackend
